import Mathlib

/-!
A verification development for the project scaffolder
`create_project_structure.py`.

The script is straight-line file-system orchestration, so we embed it
shallowly: the file system under the project root is a pair of a list of
relative directory paths and an association list from relative file paths
to text contents.  Each Python function becomes a Lean function on this
state, returning the new state together with the list of printed messages
(and, where relevant, the list of external process invocations).  Fatal
(uncaught) exceptions are modelled with `Except String`.

Idealization: `hashlib.sha256(...).hexdigest()` is used by the script only
as an equality shortcut on contents; we model the digest by the content
itself, so digest equality coincides with content equality (real SHA-256
collisions are out of scope).

External effects that are not code of this repository are parameters:
the set of directories and files produced by `venv.create` (the standard
library) is passed in (`venvDirs`, `venvFiles`); the result of reading and
JSON-parsing `files_to_keep.json` in the current working directory is
passed in as `manifest : Option (Except String (List String))` (`none` for
a missing file, `some (.error e)` for malformed JSON, `some (.ok l)` for a
parsed array); the success or failure of each `os.remove` is given by a
predicate `removeFails` on paths.
-/

namespace CreateProjectStructure

/-- Modelled SHA-256 hexdigest: the script compares digests only to decide
content equality, so the digest is modelled by the content itself. -/
def sha256hex (s : String) : String := s

/-- Look up the content of a file by its relative path (first match). -/
def lookupFile : List (String × String) → String → Option String
  | [], _ => none
  | (p, c) :: rest, q => if p = q then some c else lookupFile rest q

/-- `open(filepath, "w"); f.write(content)`: replace the content of an
existing entry, or append a new entry. -/
def writeFile : List (String × String) → String → String → List (String × String)
  | [], p, c => [(p, c)]
  | (q, d) :: rest, p, c =>
    if q = p then (p, c) :: rest else (q, d) :: writeFile rest p c

/-- The file-system state under the project root: relative directory paths
and an association list of relative file paths to contents. -/
structure FS where
  dirs : List String
  files : List (String × String)
deriving DecidableEq

/-- `create_file(filepath, content, overwrite)`.  The source first opens the
file for reading inside a `try` whose `except Exception` prints an error and
returns; a nonexistent path raises `FileNotFoundError` there, so the
function returns without ever writing.  When the file exists, the hash
comparison is only performed when `overwrite` is true; in every
non-skipped, non-error case control falls through to the write. -/
def createFile (fs : FS) (filepath content : String) (overwrite : Bool) :
    FS × List String :=
  match lookupFile fs.files filepath with
  | none =>
    (fs, ["Error checking file " ++ filepath ++ ": FileNotFoundError"])
  | some existing =>
    if overwrite && (sha256hex existing == sha256hex content) then
      (fs, ["File " ++ filepath ++ " already exists and content is the same. Skipping."])
    else
      (⟨fs.dirs, writeFile fs.files filepath content⟩,
       ["Updating or creating file " ++ filepath])

/-- `subprocess.run(argv, check=True, cwd=...)`: records the invocation and
raises `CalledProcessError` exactly when the exit code is nonzero. -/
def subprocessRunCheck (argv : List String) (exitCode : Nat) :
    List (List String) × Except String Unit :=
  ([argv], if exitCode = 0 then Except.ok () else Except.error "CalledProcessError")

/-- `run_npm_command(project_path, command)`: a blocking call to
`subprocess.run(["npm", command], check=True)` whose `CalledProcessError`
is caught and printed, so the function always returns normally.  The first
component is the list of external invocations, the second the outcome
(always `ok` with the printed messages). -/
def runNpmCommand (command : String) (exitCode : Nat) :
    List (List String) × Except String (List String) :=
  let r := subprocessRunCheck ["npm", command] exitCode
  match r.2 with
  | Except.ok _ => (r.1, Except.ok [])
  | Except.error e => (r.1, Except.ok ["Error running npm command: " ++ e])

/-- `create_and_activate_venv(project_path)`: `venv.create` populates the
`venv` directory; the directories and files it produces are parameters
(every path it produces lives under `venv/`). -/
def createAndActivateVenv (fs : FS) (venvDirs : List String)
    (venvFiles : List (String × String)) : FS × List String :=
  (⟨fs.dirs ++ ["venv"] ++ venvDirs,
    venvFiles.foldl (fun l pc => writeFile l pc.1 pc.2) fs.files⟩,
   ["Virtual environment created", "Activate venv"])

/-- `create_directories(root_dir, folders)`: `os.makedirs(..., exist_ok=True)`
for each folder; directory creation is idempotent, membership is what
matters. -/
def createDirectories (fs : FS) (folders : List String) : FS :=
  ⟨fs.dirs ++ folders, fs.files⟩

/-- `create_files(root_dir, files, overwrite)`: `create_file` on each entry
of the mapping, in order. -/
def createFiles (fs : FS) (files : List (String × String)) (overwrite : Bool) :
    FS × List String :=
  files.foldl
    (fun acc pc =>
      let r := createFile acc.1 pc.1 pc.2 overwrite
      (r.1, acc.2 ++ r.2))
    (fs, [])

/-- `delete_unlisted_files(root_dir, allowed_files)`: walk every file under
the root; a file whose relative path is not in the allow-list is removed
with `os.remove` inside a per-file `try/except OSError` that prints the
error and continues.  `removeFails p = true` models `os.remove` raising
`OSError` on `p`; the file then stays.  Directories are never touched. -/
def deleteUnlistedFiles (allowed : List String) (removeFails : String → Bool) :
    List (String × String) → List (String × String) × List String
  | [] => ([], [])
  | (p, c) :: rest =>
    let r := deleteUnlistedFiles allowed removeFails rest
    if allowed.contains p then
      ((p, c) :: r.1, r.2)
    else if removeFails p then
      ((p, c) :: r.1, ("Error deleting file " ++ p) :: r.2)
    else
      (r.1, ("Deleted unlisted file " ++ p) :: r.2)

/-- The hard-coded default allow-list used when `files_to_keep.json` is
missing. -/
def defaultFilesToKeep : List String :=
  ["README.md",
   "config/config.yaml",
   "notebooks/data_analysis.ipynb",
   "scripts/fetch_data.py",
   "scripts/process_data.py"]

/-- Loading the allow-list: `FileNotFoundError` is caught (warning printed,
default list used); a JSON parse error is not caught and propagates. -/
def loadFilesToKeep (manifest : Option (Except String (List String))) :
    Except String (List String × List String) :=
  match manifest with
  | none =>
    Except.ok (defaultFilesToKeep,
      ["Error: files_to_keep.json not found. Using default list."])
  | some (Except.ok l) => Except.ok (l, [])
  | some (Except.error e) => Except.error e

/-- The fixed folder list of `create_project_structure`. -/
def folders : List String :=
  ["data/raw", "data/processed", "notebooks", "scripts", "config"]

/-- The `files` dict of `create_project_structure`. -/
def templateFiles : List (String × String) :=
  [("README.md", "# Project Title\n\nProject description goes here."),
   ("config/config.yaml",
    "gemini:\n  api_url: \x27https://api.gemini.com/v2/campaigns\x27\n  access_token: \x27YOUR_ACCESS_TOKEN\x27")]

/-- The additional data-analysis files built from the group dict:
`os.path.join(root, group, filename)` with content
`f"# {filename} - Logic here"`. -/
def extraFileGroups : List (String × List String) :=
  [("notebooks", ["data_analysis.ipynb"]),
   ("scripts", ["fetch_data.py", "process_data.py"])]

/-- The flattened list of additional files with their stub contents. -/
def extraFiles : List (String × String) :=
  extraFileGroups.foldl
    (fun acc g =>
      acc ++ g.2.map (fun fn => (g.1 ++ "/" ++ fn, "# " ++ fn ++ " - Logic here")))
    []

/-- The outcome of a full run: final file-system state, printed messages,
and external process invocations (the main flow performs none). -/
structure RunResult where
  fs : FS
  msgs : List String
  procs : List (List String)
deriving DecidableEq

/-- `create_project_structure(project_name, overwrite, install_deps)`:
venv creation, folder creation, template files, extra files, allow-list
load (fatal on malformed JSON), pruning, and the final prints.  The
`install_deps` flag only adds a reminder message. -/
def createProjectStructure (projectName : String) (overwrite installDeps : Bool)
    (fs0 : FS) (venvDirs : List String) (venvFiles : List (String × String))
    (manifest : Option (Except String (List String)))
    (removeFails : String → Bool) : Except String RunResult :=
  let s1 := createAndActivateVenv fs0 venvDirs venvFiles
  let s2 := createDirectories s1.1 folders
  let s3 := createFiles s2 templateFiles overwrite
  let s4 := createFiles s3.1 extraFiles overwrite
  match loadFilesToKeep manifest with
  | Except.error e => Except.error e
  | Except.ok (keep, warn) =>
    let s5 := deleteUnlistedFiles keep removeFails s4.1.files
    Except.ok
      { fs := ⟨s4.1.dirs, s5.1⟩
        msgs := s1.2 ++ s3.2 ++ s4.2 ++ warn ++ s5.2 ++
          (if installDeps then
            ["Remember to activate your virtual environment and install any necessary dependencies."]
           else []) ++
          ["Project structure created for " ++ projectName]
        procs := [] }

/-- A relative path lies under the venv directory. -/
def underVenv (p : String) : Bool :=
  List.isPrefixOf "venv/".toList p.toList

/-- The files of a run that completed without a fatal error. -/
def okFiles : Except String RunResult → List (String × String)
  | Except.ok r => r.fs.files
  | Except.error _ => []

/-- The directories of a run that completed without a fatal error. -/
def okDirs : Except String RunResult → List String
  | Except.ok r => r.fs.dirs
  | Except.error _ => []

/-- The external invocations of a run that completed without a fatal error. -/
def okProcs : Except String RunResult → List (List String)
  | Except.ok r => r.procs
  | Except.error _ => []

/-- Whether a run completed without a fatal error. -/
def runOk : Except String RunResult → Bool
  | Except.ok _ => true
  | Except.error _ => false

/-! ### Helper lemmas -/

/-- Writing a file and then looking it up yields the written content. -/
theorem lookupFile_writeFile_self (l : List (String × String)) (p c : String) :
    lookupFile (writeFile l p c) p = some c := by
  induction l with
  | nil => simp [writeFile, lookupFile]
  | cons hd tl ih =>
    obtain ⟨q, d⟩ := hd
    by_cases h : q = p
    · simp [writeFile, h, lookupFile]
    · simp [writeFile, h, lookupFile, ih]

/-- `create_file` never changes the set of directories. -/
theorem createFile_dirs (fs : FS) (p c : String) (ow : Bool) :
    (createFile fs p c ow).1.dirs = fs.dirs := by
  unfold createFile
  cases lookupFile fs.files p with
  | none => rfl
  | some existing =>
    by_cases h : ow && (sha256hex existing == sha256hex c)
    · simp [h]
    · simp [h]

/-- The fold inside `create_files` never changes the set of directories. -/
theorem createFilesAux_dirs (ow : Bool) (l : List (String × String)) :
    ∀ acc : FS × List String,
      (l.foldl
        (fun acc pc =>
          let r := createFile acc.1 pc.1 pc.2 ow
          (r.1, acc.2 ++ r.2)) acc).1.dirs = acc.1.dirs := by
  induction l with
  | nil => intro acc; rfl
  | cons hd tl ih =>
    intro acc
    rw [List.foldl_cons, ih]
    exact createFile_dirs acc.1 hd.1 hd.2 ow

/-- `create_files` never changes the set of directories. -/
theorem createFiles_dirs (fs : FS) (l : List (String × String)) (ow : Bool) :
    (createFiles fs l ow).1.dirs = fs.dirs :=
  createFilesAux_dirs ow l (fs, [])

/-- The surviving files of the pruning step are exactly the walked files
that are allow-listed or whose removal failed. -/
theorem deleteUnlistedFiles_fst (allowed : List String) (removeFails : String → Bool)
    (l : List (String × String)) :
    (deleteUnlistedFiles allowed removeFails l).1
      = l.filter (fun pc => allowed.contains pc.1 || removeFails pc.1) := by
  induction l with
  | nil => rfl
  | cons hd tl ih =>
    obtain ⟨p, c⟩ := hd
    by_cases h1 : p ∈ allowed
    · simp [deleteUnlistedFiles, h1, ih]
    · by_cases h2 : removeFails p = true
      · simp [deleteUnlistedFiles, h1, h2, ih]
      · simp [deleteUnlistedFiles, h1, h2, ih]

/-- A failed removal during pruning is reported in the printed messages. -/
theorem deleteUnlistedFiles_error_msg (allowed : List String)
    (removeFails : String → Bool) (l : List (String × String)) :
    ∀ pc : String × String, pc ∈ l → allowed.contains pc.1 = false →
      removeFails pc.1 = true →
      ("Error deleting file " ++ pc.1) ∈ (deleteUnlistedFiles allowed removeFails l).2 := by
  induction l with
  | nil => intro pc h; cases h
  | cons hd tl ih =>
    intro pc hmem h1 h2
    obtain ⟨p, c⟩ := hd
    rcases List.mem_cons.mp hmem with heq | htl
    · subst heq
      have hp : p ∉ allowed := by simpa using h1
      simp [deleteUnlistedFiles, hp, h2]
    · have hrec := ih pc htl h1 h2
      by_cases hb1 : p ∈ allowed
      · simpa [deleteUnlistedFiles, hb1] using hrec
      · by_cases hb2 : removeFails p = true
        · simp [deleteUnlistedFiles, hb1, hb2]
          exact Or.inr hrec
        · simp [deleteUnlistedFiles, hb1, hb2]
          exact Or.inr hrec

/-! ### Claims -/

/-- C1: the claim says a nonexistent target file is created with the
template content.  The code contradicts it (and its own purpose and its
Updating-or-creating message): `open(filepath, "r")` on an absent path
raises `FileNotFoundError`, the blanket `except` prints an error and
returns, so nothing is ever written.  At the failing input, `create_file`
on an absent `README.md` leaves the file system empty and prints the
checking error, and a whole first run over an empty tree produces no files
at all. -/
theorem c1_absent_target_never_written :
    (createFile ⟨[], []⟩ "README.md"
        "# Project Title\n\nProject description goes here." false).1.files = [] ∧
    (createFile ⟨[], []⟩ "README.md"
        "# Project Title\n\nProject description goes here." false).2
      = ["Error checking file README.md: FileNotFoundError"] ∧
    okFiles (createProjectStructure "myapp" false true ⟨[], []⟩ [] [] none
        (fun _ => false)) = [] := by
  decide

/-- C2: the claim says an existing file is left unchanged under
`overwrite=false`.  The code contradicts the plain meaning of the flag: the
read block performs no check when `overwrite` is false, control falls
through, and the file is rewritten with the template content.  At the
failing input, an existing `README.md` holding user content is clobbered. -/
theorem c2_overwrite_false_rewrites_existing :
    (createFile ⟨[], [("README.md", "user edited content")]⟩ "README.md"
        "# Project Title\n\nProject description goes here." false).1.files
      = [("README.md", "# Project Title\n\nProject description goes here.")] := by
  decide

/-- C3: for an existing readable target under `overwrite=true`, the digest
comparison skips the write when the contents agree (the state is untouched)
and rewrites otherwise; either way the file afterwards holds exactly the
template content. -/
theorem c3_overwrite_true_yields_template (fs : FS) (p c existing : String)
    (h : lookupFile fs.files p = some existing) :
    lookupFile (createFile fs p c true).1.files p = some c ∧
    (existing = c → (createFile fs p c true).1 = fs) := by
  constructor
  · unfold createFile
    rw [h]
    by_cases hc : existing = c
    · subst hc
      simpa [sha256hex] using h
    · have hb : (sha256hex existing == sha256hex c) = false := by
        simp [sha256hex, hc]
      simp [hb, lookupFile_writeFile_self]
  · intro hc
    subst hc
    unfold createFile
    rw [h]
    simp [sha256hex]

/-- C3 witness. -/
theorem c3_overwrite_true_yields_template_witness :
    lookupFile (FS.mk [] [("config/config.yaml", "old")]).files "config/config.yaml"
        = some "old" ∧
    (lookupFile (createFile ⟨[], [("config/config.yaml", "old")]⟩
        "config/config.yaml" "new" true).1.files "config/config.yaml" = some "new" ∧
     ("old" = "new" →
       (createFile ⟨[], [("config/config.yaml", "old")]⟩
         "config/config.yaml" "new" true).1 = ⟨[], [("config/config.yaml", "old")]⟩)) :=
  ⟨by decide,
   c3_overwrite_true_yields_template ⟨[], [("config/config.yaml", "old")]⟩
     "config/config.yaml" "new" "old" (by decide)⟩

/-- C4: when every attempted deletion succeeds, the files surviving the
pruning step are exactly those whose relative path is in the allow-list:
every survivor is allow-listed, and every allow-listed file present before
pruning is still present after it. -/
theorem c4_prune_is_exact_restriction (files : List (String × String))
    (allowed : List String) :
    (∀ pc ∈ (deleteUnlistedFiles allowed (fun _ => false) files).1,
       pc.1 ∈ allowed) ∧
    (∀ pc ∈ files, pc.1 ∈ allowed →
       pc ∈ (deleteUnlistedFiles allowed (fun _ => false) files).1) := by
  constructor
  · intro pc hmem
    rw [deleteUnlistedFiles_fst] at hmem
    have hp := List.of_mem_filter hmem
    simpa using hp
  · intro pc hmem hall
    rw [deleteUnlistedFiles_fst]
    refine List.mem_filter.mpr ⟨hmem, ?_⟩
    simp [hall]

/-- C4 witness. -/
theorem c4_prune_is_exact_restriction_witness :
    ("README.md", "x") ∈
        ([("README.md", "x"), ("junk.txt", "y")] : List (String × String)) ∧
    ("README.md" : String) ∈ (["README.md"] : List String) ∧
    ("README.md", "x") ∈
      (deleteUnlistedFiles ["README.md"] (fun _ => false)
        [("README.md", "x"), ("junk.txt", "y")]).1 :=
  ⟨by decide, by decide,
   (c4_prune_is_exact_restriction [("README.md", "x"), ("junk.txt", "y")]
       ["README.md"]).2 ("README.md", "x") (by decide) (by decide)⟩

/-- C5: when the manifest is absent (so the hard-coded default allow-list
is used) and deletions succeed, the pruning step deletes every file under
the venv directory created earlier in the same run: no file whose relative
path lies under `venv/` survives, because no default entry names such a
path. -/
theorem c5_default_prune_removes_venv (name : String) (ow deps : Bool)
    (fs0 : FS) (vd : List String) (vf : List (String × String)) :
    ∀ pc ∈ okFiles (createProjectStructure name ow deps fs0 vd vf none
        (fun _ => false)),
      underVenv pc.1 = false := by
  intro pc hmem
  have hred : okFiles (createProjectStructure name ow deps fs0 vd vf none
        (fun _ => false))
      = (deleteUnlistedFiles defaultFilesToKeep (fun _ => false)
          ((createFiles
              (createFiles
                (createDirectories (createAndActivateVenv fs0 vd vf).1 folders)
                templateFiles ow).1
              extraFiles ow).1.files)).1 := rfl
  rw [hred, deleteUnlistedFiles_fst] at hmem
  have hk : pc.1 ∈ defaultFilesToKeep := by
    have hp := List.of_mem_filter hmem
    simpa using hp
  simp only [defaultFilesToKeep, List.mem_cons, List.mem_singleton,
    List.not_mem_nil, or_false] at hk
  rcases hk with h | h | h | h | h <;> rw [h] <;> decide

/-- C5 witness. -/
theorem c5_default_prune_removes_venv_witness :
    ("README.md", "# Project Title\n\nProject description goes here.") ∈
      okFiles (createProjectStructure "m" false true ⟨[], [("README.md", "x")]⟩
        ["venv/bin"] [("venv/pyvenv.cfg", "cfg")] none (fun _ => false)) ∧
    underVenv "README.md" = false :=
  ⟨by decide,
   c5_default_prune_removes_venv "m" false true ⟨[], [("README.md", "x")]⟩
     ["venv/bin"] [("venv/pyvenv.cfg", "cfg")]
     ("README.md", "# Project Title\n\nProject description goes here.")
     (by decide)⟩

/-- C6: loading the allow-list: a missing manifest is soft (warning printed,
the fixed default list of five paths substituted, and any such run still
completes without a fatal error), while a manifest holding malformed JSON
makes the whole run fail with the uncaught parse error. -/
theorem c6_missing_manifest_soft_malformed_fatal :
    loadFilesToKeep none
      = Except.ok (defaultFilesToKeep,
          ["Error: files_to_keep.json not found. Using default list."]) ∧
    defaultFilesToKeep
      = ["README.md", "config/config.yaml", "notebooks/data_analysis.ipynb",
         "scripts/fetch_data.py", "scripts/process_data.py"] ∧
    (∀ (name : String) (ow deps : Bool) (fs0 : FS) (vd : List String)
        (vf : List (String × String)) (fails : String → Bool),
       runOk (createProjectStructure name ow deps fs0 vd vf none fails) = true) ∧
    (∀ (name : String) (ow deps : Bool) (fs0 : FS) (vd : List String)
        (vf : List (String × String)) (fails : String → Bool) (e : String),
       createProjectStructure name ow deps fs0 vd vf (some (Except.error e)) fails
         = Except.error e) := by
  refine ⟨rfl, rfl, ?_, ?_⟩
  · intro name ow deps fs0 vd vf fails
    rfl
  · intro name ow deps fs0 vd vf fails e
    rfl

/-- C7: a failed removal during pruning is caught per-file: the file stays,
the error is printed, and every other unlisted file whose removal succeeds
is still deleted — the loop never aborts. -/
theorem c7_deletion_failure_is_per_file (files : List (String × String))
    (allowed : List String) (removeFails : String → Bool) :
    (∀ pc ∈ files, allowed.contains pc.1 = false → removeFails pc.1 = true →
       pc ∈ (deleteUnlistedFiles allowed removeFails files).1 ∧
       ("Error deleting file " ++ pc.1)
         ∈ (deleteUnlistedFiles allowed removeFails files).2) ∧
    (∀ pc ∈ files, allowed.contains pc.1 = false → removeFails pc.1 = false →
       pc ∉ (deleteUnlistedFiles allowed removeFails files).1) := by
  constructor
  · intro pc hmem h1 h2
    refine ⟨?_, deleteUnlistedFiles_error_msg allowed removeFails files pc hmem h1 h2⟩
    rw [deleteUnlistedFiles_fst]
    refine List.mem_filter.mpr ⟨hmem, ?_⟩
    simp [h2]
  · intro pc hmem h1 h2
    have h1m : pc.1 ∉ allowed := by simpa using h1
    rw [deleteUnlistedFiles_fst]
    intro hcon
    have hp := List.of_mem_filter hcon
    simp [h1m, h2] at hp

/-- C7 witness: with an allow-list not naming either file, removal of
`a.txt` fails and the file survives with the error printed, while `b.txt`
is still deleted. -/
theorem c7_deletion_failure_is_per_file_witness :
    (["keep.md"] : List String).contains "a.txt" = false ∧
    (("a.txt", "1") ∈ (deleteUnlistedFiles ["keep.md"] (fun p => p == "a.txt")
         [("a.txt", "1"), ("b.txt", "2")]).1 ∧
     ("Error deleting file " ++ "a.txt")
       ∈ (deleteUnlistedFiles ["keep.md"] (fun p => p == "a.txt")
         [("a.txt", "1"), ("b.txt", "2")]).2) ∧
    ("b.txt", "2") ∉ (deleteUnlistedFiles ["keep.md"] (fun p => p == "a.txt")
         [("a.txt", "1"), ("b.txt", "2")]).1 :=
  ⟨by decide,
   (c7_deletion_failure_is_per_file [("a.txt", "1"), ("b.txt", "2")] ["keep.md"]
      (fun p => p == "a.txt")).1 ("a.txt", "1") (by decide) (by decide) (by decide),
   (c7_deletion_failure_is_per_file [("a.txt", "1"), ("b.txt", "2")] ["keep.md"]
      (fun p => p == "a.txt")).2 ("b.txt", "2") (by decide) (by decide) (by decide)⟩

/-- C8 counterexample: the claim says a nonzero exit of the package-manager
command aborts the process; at the concrete input (command `install`, exit
code 1) `run_npm_command` catches the `CalledProcessError` raised by
`check=True` and returns normally with only a printed message — no
exception escapes. -/
theorem c8_nonzero_exit_is_caught :
    (runNpmCommand "install" 1).2
      = Except.ok ["Error running npm command: CalledProcessError"] := by
  rfl

/-- C8 amended: the package-manager invocation is a blocking
`subprocess.run` with a nonzero-exit check, but the resulting
`CalledProcessError` is caught and merely printed, so the caller always
returns normally; and the main flow performs no external process
invocation at all (the npm runner is dead code). -/
theorem c8_npm_check_caught_and_dead_code :
    (∀ (cmd : String) (code : Nat), (runNpmCommand cmd code).1 = [["npm", cmd]]) ∧
    (∀ (cmd : String) (code : Nat), code ≠ 0 →
       (runNpmCommand cmd code).2
         = Except.ok ["Error running npm command: CalledProcessError"]) ∧
    (∀ cmd : String, (runNpmCommand cmd 0).2 = Except.ok []) ∧
    (∀ (name : String) (ow deps : Bool) (fs0 : FS) (vd : List String)
        (vf : List (String × String))
        (manifest : Option (Except String (List String)))
        (fails : String → Bool),
       okProcs (createProjectStructure name ow deps fs0 vd vf manifest fails)
         = []) := by
  refine ⟨?_, ?_, ?_, ?_⟩
  · intro cmd code
    by_cases h : code = 0 <;> simp [runNpmCommand, subprocessRunCheck, h]
  · intro cmd code h
    simp [runNpmCommand, subprocessRunCheck, h]
  · intro cmd
    rfl
  · intro name ow deps fs0 vd vf manifest fails
    cases manifest with
    | none => rfl
    | some x =>
      cases x with
      | ok l => rfl
      | error e => rfl

/-- C8 witness. -/
theorem c8_npm_check_caught_and_dead_code_witness :
    (1 ≠ 0) ∧
    (runNpmCommand "install" 1).2
      = Except.ok ["Error running npm command: CalledProcessError"] :=
  ⟨by decide, c8_npm_check_caught_and_dead_code.2.1 "install" 1 (by decide)⟩

/-- C9: the install-dependencies flag is cosmetic: two runs differing only
in `install_deps` produce the same final file-system state (and the same
external invocations, and fail identically); only the printed messages can
differ. -/
theorem c9_installDeps_is_cosmetic (name : String) (ow : Bool) (fs0 : FS)
    (vd : List String) (vf : List (String × String))
    (manifest : Option (Except String (List String)))
    (fails : String → Bool) :
    (createProjectStructure name ow true fs0 vd vf manifest fails).map
        (fun r => (r.fs, r.procs))
      = (createProjectStructure name ow false fs0 vd vf manifest fails).map
        (fun r => (r.fs, r.procs)) := by
  cases manifest with
  | none => rfl
  | some x =>
    cases x with
    | ok l => rfl
    | error e => rfl

/-- C10: pruning removes only regular files, never directories: a run that
completes keeps exactly the directories present before pruning (those of
the initial state plus `venv`, the venv-internal directories, and the five
scaffolded folders, including the empty `data/raw` and `data/processed`),
for every allow-list. -/
theorem c10_pruning_preserves_directories (name : String) (ow deps : Bool)
    (fs0 : FS) (vd : List String) (vf : List (String × String))
    (manifest : Option (Except String (List String)))
    (fails : String → Bool)
    (h : runOk (createProjectStructure name ow deps fs0 vd vf manifest fails)
        = true) :
    okDirs (createProjectStructure name ow deps fs0 vd vf manifest fails)
      = fs0.dirs ++ ["venv"] ++ vd ++ folders ∧
    "data/raw" ∈ okDirs (createProjectStructure name ow deps fs0 vd vf
        manifest fails) ∧
    "data/processed" ∈ okDirs (createProjectStructure name ow deps fs0 vd vf
        manifest fails) := by
  have hdirs : ∀ keep warn,
      loadFilesToKeep manifest = Except.ok (keep, warn) →
      okDirs (createProjectStructure name ow deps fs0 vd vf manifest fails)
        = fs0.dirs ++ ["venv"] ++ vd ++ folders := by
    intro keep warn hl
    have hok : okDirs (createProjectStructure name ow deps fs0 vd vf manifest fails)
        = (createFiles
            (createFiles
              (createDirectories (createAndActivateVenv fs0 vd vf).1 folders)
              templateFiles ow).1
            extraFiles ow).1.dirs := by
      unfold createProjectStructure
      rw [hl]
      rfl
    rw [hok, createFiles_dirs, createFiles_dirs]
    rfl
  cases manifest with
  | none =>
    have heq := hdirs defaultFilesToKeep
      ["Error: files_to_keep.json not found. Using default list."] rfl
    refine ⟨heq, ?_, ?_⟩ <;> rw [heq] <;> simp [folders]
  | some x =>
    cases x with
    | ok l =>
      have heq := hdirs l [] rfl
      refine ⟨heq, ?_, ?_⟩ <;> rw [heq] <;> simp [folders]
    | error e =>
      exact absurd h (by simp [createProjectStructure, loadFilesToKeep, runOk])

/-- C10 witness. -/
theorem c10_pruning_preserves_directories_witness :
    runOk (createProjectStructure "m" false true ⟨[], []⟩ [] [] none
        (fun _ => false)) = true ∧
    (okDirs (createProjectStructure "m" false true ⟨[], []⟩ [] [] none
        (fun _ => false))
       = (FS.mk [] []).dirs ++ ["venv"] ++ [] ++ folders ∧
     "data/raw" ∈ okDirs (createProjectStructure "m" false true ⟨[], []⟩ [] []
        none (fun _ => false)) ∧
     "data/processed" ∈ okDirs (createProjectStructure "m" false true ⟨[], []⟩
        [] [] none (fun _ => false))) :=
  ⟨by decide,
   c10_pruning_preserves_directories "m" false true ⟨[], []⟩ [] [] none
     (fun _ => false) (by decide)⟩

end CreateProjectStructure
